import Mathlib

set_option linter.unusedVariables false

/-!
Verification of the `input` package mocks (`src/input/mocks.go`) and of the
spec-level contracts they stand for.

The Go file defines three testify-style mocks: `MockInput`, `MockWitnessType`
and `MockInputSigner`.  Each method calls `m.Called(...)`, which records the
invocation and returns the return values the test configured for the method,
then coerces them with type assertions (`args.Get(0).(*T)`, `args.Bool(i)`,
`args.Error(i)`).

Embedding choices, mirrored from the source:
* A configured `interface{}` return slot is a `GoVal`: either the Go `nil`
  interface value or a value of one of the concrete types appearing in the
  file.  A Go type assertion on a `GoVal` either yields the carried value or
  panics; we model panics with `Except GoPanic`.
* `args.Error(i)` returns the configured error or `nil`; error slots are typed
  `Option GoError` (a non-error value in an error slot is a test-setup bug the
  claims do not touch).
* Each mock method is a pure function of its configuration and arguments.
  `CraftInputScript` additionally threads the testify call record and returns
  the transaction value observable by the caller after the call, so that frame
  properties about the transaction can be stated.
-/

namespace Mocks

/-- Opaque model of a Go `error` value (only identity matters to the mocks). -/
abbrev GoError := Nat

/-- Outcome of a failing Go type assertion inside a mock method. -/
inductive GoPanic where
  | typeAssertionFailed
deriving DecidableEq, Repr

/-- A value stored in a testify return slot of type `interface{}`: the Go
`nil` interface or a value of one of the concrete types used in `mocks.go`.
The payload types are opaque (`Nat`) because the mocks only pass them
through. -/
inductive GoVal where
  | goNil
  | outPoint (op : Nat)
  | txOut (t : Nat)
  | u32 (n : Nat)
  | boolV (b : Bool)
  | witnessTy (w : Nat)
  | signDescV (d : Nat)
  | scriptV (s : Nat)
  | txInfo (i : Nat)
  | strV (s : String)
  | witnessGenV (g : Nat)
  | weightUnit (w : Nat)
  | sigV (s : Nat)
  | sessionInfo (s : Nat)
  | partialSigV (p : Nat)
  | schnorrSigV (s : Nat)
deriving DecidableEq, Repr

/-- Go type assertion `v.(wire.OutPoint)`. -/
def assertOutPoint : GoVal → Except GoPanic Nat
  | .outPoint op => .ok op
  | _ => .error .typeAssertionFailed

/-- Go type assertion `v.(*wire.TxOut)` (on a non-nil value). -/
def assertTxOut : GoVal → Except GoPanic Nat
  | .txOut t => .ok t
  | _ => .error .typeAssertionFailed

/-- Go type assertion `v.(uint32)`. -/
def assertU32 : GoVal → Except GoPanic Nat
  | .u32 n => .ok n
  | _ => .error .typeAssertionFailed

/-- Testify `args.Bool(i)`: type assertion `v.(bool)`. -/
def assertBool : GoVal → Except GoPanic Bool
  | .boolV b => .ok b
  | _ => .error .typeAssertionFailed

/-- Go type assertion `v.(WitnessType)` (on a non-nil value). -/
def assertWitnessTy : GoVal → Except GoPanic Nat
  | .witnessTy w => .ok w
  | _ => .error .typeAssertionFailed

/-- Go type assertion `v.(*SignDescriptor)` (on a non-nil value). -/
def assertSignDesc : GoVal → Except GoPanic Nat
  | .signDescV d => .ok d
  | _ => .error .typeAssertionFailed

/-- Go type assertion `v.(*Script)` (on a non-nil value). -/
def assertScript : GoVal → Except GoPanic Nat
  | .scriptV s => .ok s
  | _ => .error .typeAssertionFailed

/-- Go type assertion `v.(*TxInfo)` (on a non-nil value). -/
def assertTxInfo : GoVal → Except GoPanic Nat
  | .txInfo i => .ok i
  | _ => .error .typeAssertionFailed

/-- Testify `args.String(i)`: type assertion `v.(string)`. -/
def assertString : GoVal → Except GoPanic String
  | .strV s => .ok s
  | _ => .error .typeAssertionFailed

/-- Go type assertion `v.(WitnessGenerator)`. -/
def assertWitnessGen : GoVal → Except GoPanic Nat
  | .witnessGenV g => .ok g
  | _ => .error .typeAssertionFailed

/-- Go type assertion `v.(lntypes.WeightUnit)`. -/
def assertWeightUnit : GoVal → Except GoPanic Nat
  | .weightUnit w => .ok w
  | _ => .error .typeAssertionFailed

/-- Go type assertion `v.(Signature)` (on a non-nil value). -/
def assertSig : GoVal → Except GoPanic Nat
  | .sigV s => .ok s
  | _ => .error .typeAssertionFailed

/-- Go type assertion `v.(*MuSig2SessionInfo)` (on a non-nil value). -/
def assertSessionInfo : GoVal → Except GoPanic Nat
  | .sessionInfo s => .ok s
  | _ => .error .typeAssertionFailed

/-- Go type assertion `v.(*musig2.PartialSignature)` (on a non-nil value). -/
def assertPartialSig : GoVal → Except GoPanic Nat
  | .partialSigV p => .ok p
  | _ => .error .typeAssertionFailed

/-- Go type assertion `v.(*schnorr.Signature)` (on a non-nil value). -/
def assertSchnorrSig : GoVal → Except GoPanic Nat
  | .schnorrSigV s => .ok s
  | _ => .error .typeAssertionFailed

/-- Shallow model of `wire.MsgTx`: the fields a caller could observe change. -/
structure MsgTx where
  version : Int
  txIn : List Nat
  txOut : List Nat
  lockTime : Nat
deriving DecidableEq, Repr

/-- One recorded `m.Called(...)` invocation of `CraftInputScript` (testify
stores the arguments for later expectation checks). -/
structure CraftCall where
  signer : Nat
  txn : MsgTx
  hashCache : Nat
  prevOutputFetcher : Nat
  txinIdx : Int
deriving DecidableEq, Repr

/-- The testify call record of a `MockInput`. -/
abbrev MockState := List CraftCall

/-- The return values a test configured for each `MockInput` method
(`m.On(...).Return(...)`), in source order of the methods. -/
structure MockInputCfg where
  outPointRet : GoVal
  requiredTxOutRet : GoVal
  requiredLockTimeRet : GoVal
  requiredLockTimeBool : GoVal
  witnessTypeRet : GoVal
  signDescRet : GoVal
  craftRet : GoVal
  craftErr : Option GoError
  blocksToMaturityRet : GoVal
  heightHintRet : GoVal
  unconfParentRet : GoVal
deriving DecidableEq, Repr

namespace MockInput

/-- `MockInput.OutPoint`: `return args.Get(0).(wire.OutPoint)`. -/
def outPoint (cfg : MockInputCfg) : Except GoPanic Nat :=
  assertOutPoint cfg.outPointRet

/-- `MockInput.RequiredTxOut`: nil-checks the configured value before the
`(*wire.TxOut)` assertion. -/
def requiredTxOut (cfg : MockInputCfg) : Except GoPanic (Option Nat) :=
  match cfg.requiredTxOutRet with
  | .goNil => .ok none
  | v => (assertTxOut v).map some

/-- `MockInput.RequiredLockTime`: `return args.Get(0).(uint32), args.Bool(1)`. -/
def requiredLockTime (cfg : MockInputCfg) : Except GoPanic (Nat × Bool) :=
  match assertU32 cfg.requiredLockTimeRet with
  | .error p => .error p
  | .ok v =>
    match assertBool cfg.requiredLockTimeBool with
    | .error p => .error p
    | .ok b => .ok (v, b)

/-- `MockInput.WitnessType`: nil-checks the configured value before the
`(WitnessType)` assertion. -/
def witnessType (cfg : MockInputCfg) : Except GoPanic (Option Nat) :=
  match cfg.witnessTypeRet with
  | .goNil => .ok none
  | v => (assertWitnessTy v).map some

/-- `MockInput.SignDesc`: nil-checks the configured value before the
`(*SignDescriptor)` assertion. -/
def signDesc (cfg : MockInputCfg) : Except GoPanic (Option Nat) :=
  match cfg.signDescRet with
  | .goNil => .ok none
  | v => (assertSignDesc v).map some

/-- `MockInput.CraftInputScript`: records the call, then returns the
configured `*Script` (nil-checked) together with the configured error.  The
triple returned here is (method result, call record after the call,
transaction value observable by the caller after the call); the body never
writes through the `txn` pointer. -/
def craftInputScript (cfg : MockInputCfg) (st : MockState) (signer : Nat)
    (txn : MsgTx) (hashCache : Nat) (prevOutputFetcher : Nat) (txinIdx : Int) :
    Except GoPanic (Option Nat × Option GoError) × MockState × MsgTx :=
  let st' := ⟨signer, txn, hashCache, prevOutputFetcher, txinIdx⟩ :: st
  match cfg.craftRet with
  | .goNil => (.ok (none, cfg.craftErr), st', txn)
  | .scriptV s => (.ok (some s, cfg.craftErr), st', txn)
  | _ => (.error .typeAssertionFailed, st', txn)

/-- `MockInput.BlocksToMaturity`: `return args.Get(0).(uint32)`. -/
def blocksToMaturity (cfg : MockInputCfg) : Except GoPanic Nat :=
  assertU32 cfg.blocksToMaturityRet

/-- `MockInput.HeightHint`: `return args.Get(0).(uint32)`. -/
def heightHint (cfg : MockInputCfg) : Except GoPanic Nat :=
  assertU32 cfg.heightHintRet

/-- `MockInput.UnconfParent`: nil-checks the configured value before the
`(*TxInfo)` assertion. -/
def unconfParent (cfg : MockInputCfg) : Except GoPanic (Option Nat) :=
  match cfg.unconfParentRet with
  | .goNil => .ok none
  | v => (assertTxInfo v).map some

end MockInput

/-- The return values a test configured for each `MockWitnessType` method. -/
structure MockWitnessTypeCfg where
  stringRet : GoVal
  witnessGeneratorRet : GoVal
  sizeUpperBoundSize : GoVal
  sizeUpperBoundNested : GoVal
  sizeUpperBoundErr : Option GoError
  addWeightEstimationErr : Option GoError
deriving DecidableEq, Repr

namespace MockWitnessType

/-- `MockWitnessType.String`: `return args.String(0)`. -/
def stringMethod (cfg : MockWitnessTypeCfg) : Except GoPanic String :=
  assertString cfg.stringRet

/-- `MockWitnessType.WitnessGenerator`: the body invokes `m.Called()` with no
arguments and asserts the configured value, so `signer` and `descriptor` are
received but never used. -/
def witnessGenerator (cfg : MockWitnessTypeCfg) (signer : Nat)
    (descriptor : Option Nat) : Except GoPanic Nat :=
  assertWitnessGen cfg.witnessGeneratorRet

/-- `MockWitnessType.SizeUpperBound`:
`return args.Get(0).(lntypes.WeightUnit), args.Bool(1), args.Error(2)`. -/
def sizeUpperBound (cfg : MockWitnessTypeCfg) :
    Except GoPanic (Nat × Bool × Option GoError) :=
  match assertWeightUnit cfg.sizeUpperBoundSize with
  | .error p => .error p
  | .ok w =>
    match assertBool cfg.sizeUpperBoundNested with
    | .error p => .error p
    | .ok b => .ok (w, b, cfg.sizeUpperBoundErr)

/-- `MockWitnessType.AddWeightEstimation`: `return args.Error(0)`. -/
def addWeightEstimation (cfg : MockWitnessTypeCfg) (e : Nat) :
    Option GoError :=
  cfg.addWeightEstimationErr

end MockWitnessType

/-- The return values a test configured for each `MockInputSigner` method. -/
structure MockInputSignerCfg where
  signOutputRawRet : GoVal
  signOutputRawErr : Option GoError
  computeInputScriptRet : GoVal
  computeInputScriptErr : Option GoError
  createSessionRet : GoVal
  createSessionErr : Option GoError
  registerNoncesRet : GoVal
  registerNoncesErr : Option GoError
  signRet : GoVal
  signErr : Option GoError
  combineSigRet : GoVal
  combineSigBool : GoVal
  combineSigErr : Option GoError
  cleanupErr : Option GoError
deriving DecidableEq, Repr

namespace MockInputSigner

/-- `MockInputSigner.SignOutputRaw`: nil-checks `args.Get(0)`; on the nil
branch returns `(nil, args.Error(1))`, otherwise asserts `(Signature)` and
returns it with the same configured error. -/
def signOutputRaw (cfg : MockInputSignerCfg) (tx : MsgTx) (signDescArg : Nat) :
    Except GoPanic (Option Nat × Option GoError) :=
  match cfg.signOutputRawRet with
  | .goNil => .ok (none, cfg.signOutputRawErr)
  | v =>
    match assertSig v with
    | .error p => .error p
    | .ok s => .ok (some s, cfg.signOutputRawErr)

/-- `MockInputSigner.ComputeInputScript`: same shape with `(*Script)`. -/
def computeInputScript (cfg : MockInputSignerCfg) (tx : MsgTx)
    (signDescArg : Nat) : Except GoPanic (Option Nat × Option GoError) :=
  match cfg.computeInputScriptRet with
  | .goNil => .ok (none, cfg.computeInputScriptErr)
  | v =>
    match assertScript v with
    | .error p => .error p
    | .ok s => .ok (some s, cfg.computeInputScriptErr)

/-- `MockInputSigner.MuSig2CreateSession`: same shape with
`(*MuSig2SessionInfo)`. -/
def muSig2CreateSession (cfg : MockInputSignerCfg) (version : Nat)
    (locator : Nat) (pubkeys : List Nat) (tweak : Option Nat)
    (pubNonces : List Nat) (nonces : Option Nat) :
    Except GoPanic (Option Nat × Option GoError) :=
  match cfg.createSessionRet with
  | .goNil => .ok (none, cfg.createSessionErr)
  | v =>
    match assertSessionInfo v with
    | .error p => .error p
    | .ok s => .ok (some s, cfg.createSessionErr)

/-- `MockInputSigner.MuSig2RegisterNonces`: on a nil configured value returns
`(false, args.Error(1))`, otherwise `args.Bool(0)` with the error. -/
def muSig2RegisterNonces (cfg : MockInputSignerCfg) (sessionID : Nat)
    (pubNonces : List Nat) : Except GoPanic (Bool × Option GoError) :=
  match cfg.registerNoncesRet with
  | .goNil => .ok (false, cfg.registerNoncesErr)
  | v =>
    match assertBool v with
    | .error p => .error p
    | .ok b => .ok (b, cfg.registerNoncesErr)

/-- `MockInputSigner.MuSig2Sign`: nil-check, then `(*musig2.PartialSignature)`
assertion. -/
def muSig2Sign (cfg : MockInputSignerCfg) (sessionID : Nat) (msg : Nat)
    (withSortedKeys : Bool) : Except GoPanic (Option Nat × Option GoError) :=
  match cfg.signRet with
  | .goNil => .ok (none, cfg.signErr)
  | v =>
    match assertPartialSig v with
    | .error p => .error p
    | .ok s => .ok (some s, cfg.signErr)

/-- `MockInputSigner.MuSig2CombineSig`: on a nil configured signature the
method returns `(nil, false, args.Error(2))`, discarding the configured
boolean; otherwise it asserts the signature, then `args.Bool(1)`. -/
def muSig2CombineSig (cfg : MockInputSignerCfg) (sessionID : Nat)
    (partialSigs : List Nat) :
    Except GoPanic (Option Nat × Bool × Option GoError) :=
  match cfg.combineSigRet with
  | .goNil => .ok (none, false, cfg.combineSigErr)
  | v =>
    match assertSchnorrSig v with
    | .error p => .error p
    | .ok s =>
      match assertBool cfg.combineSigBool with
      | .error p => .error p
      | .ok b => .ok (some s, b, cfg.combineSigErr)

/-- `MockInputSigner.MuSig2Cleanup`: `return args.Error(0)`. -/
def muSig2Cleanup (cfg : MockInputSignerCfg) (sessionID : Nat) :
    Option GoError :=
  cfg.cleanupErr

end MockInputSigner

end Mocks

namespace SpecModel

/-!
The repository snapshot under verification contains only the `input` package
mocks; the production `WitnessType` variants and the MuSig2 session manager
that the spec describes (spec sections 3, 4.2 and 4.4) are declared and
consumed here but implemented elsewhere.  The definitions in this namespace
are therefore modelled from the spec, as marked on each one.
-/

/-- Modelled from the spec: identifier of a remote signing participant
(section 4.4; the concrete session manager is not in the snapshot). -/
abbrev Participant := Nat

/-- Modelled from the spec: an opaque MuSig2 public nonce value. -/
abbrev PubNonce := Nat

/-- Modelled from the spec (section 3, "MuSig2 Session"): a session holds the
local key and nonce, the expected remote participants, the remote nonces
registered so far (an association list with at most one entry per
participant), and the local partial signature once produced. -/
structure MuSession where
  localKey : Nat
  localNonce : Nat
  expected : List Participant
  registered : List (Participant × PubNonce)
  partialSig : Option Nat
deriving DecidableEq, Repr

/-- Modelled from the spec: the session store, an in-memory map keyed by
session ID (section 9: "an in-memory map keyed by session ID"). -/
abbrev SessionStore := List (Nat × MuSession)

/-- Modelled from the spec (section 7): the error taxonomy entries visible to
MuSig2 session operations. -/
inductive MuErr where
  | sessionNotFound
  | incompleteNonces
  | unknownParticipant
  | duplicateNonce
deriving DecidableEq, Repr

/-- Look a session up by its ID. -/
def lookupSession (st : SessionStore) (id : Nat) : Option MuSession :=
  (st.find? (fun p => p.1 = id)).map (fun p => p.2)

/-- Replace the session stored under `id`. -/
def updateSession (st : SessionStore) (id : Nat) (s : MuSession) :
    SessionStore :=
  st.map (fun p => if p.1 = id then (id, s) else p)

/-- Modelled from the spec (section 4.4, Cleanup): releases the session's
memory; calling it again is a no-op (idempotent). -/
def muSig2Cleanup (st : SessionStore) (id : Nat) : SessionStore :=
  st.filter (fun p => p.1 ≠ id)

/-- The nonce currently registered for participant `p`, if any. -/
def registeredNonce (s : MuSession) (p : Participant) :
    Option (Participant × PubNonce) :=
  s.registered.find? (fun q => q.1 = p)

/-- Modelled from the spec (section 4.4, RegisterNonces): record one remote
nonce.  A nonce for a participant outside the session's key set fails; a
nonce already recorded for its participant is accepted idempotently, while a
conflicting re-registration for the same participant fails (resubmission
"beyond expectation"). -/
def registerOne (s : MuSession) (p : Participant) (n : PubNonce) :
    Except MuErr MuSession :=
  if p ∈ s.expected then
    match registeredNonce s p with
    | some q => if q.2 = n then .ok s else .error .duplicateNonce
    | none =>
        .ok { s with registered := s.registered ++ [(p, n)] }
  else .error .unknownParticipant

/-- Record a batch of remote nonces, left to right. -/
def registerMany (s : MuSession) :
    List (Participant × PubNonce) → Except MuErr MuSession
  | [] => .ok s
  | x :: xs =>
    match registerOne s x.1 x.2 with
    | .error e => .error e
    | .ok s1 => registerMany s1 xs

/-- Whether every expected participant's nonce is present. -/
def allRegistered (s : MuSession) : Bool :=
  s.expected.all (fun p => (registeredNonce s p).isSome)

/-- Modelled from the spec (section 4.4, RegisterNonces): idempotently records
remote nonces for the session identified by `id`; returns `true` once every
expected participant's nonce is present.  An unknown or destroyed session ID
fails with session-not-found. -/
def muSig2RegisterNonces (st : SessionStore) (id : Nat)
    (nonces : List (Participant × PubNonce)) :
    Except MuErr (Bool × SessionStore) :=
  match lookupSession st id with
  | none => .error .sessionNotFound
  | some s =>
    match registerMany s nonces with
    | .error e => .error e
    | .ok s1 => .ok (allRegistered s1, updateSession st id s1)

/-- Modelled from the spec (section 4.4, Sign): the partial signature is a
deterministic function of the session's nonce state (local nonce plus the
registered remote nonces) and the message; the spec fixes the determinism,
not the signature algebra, so an injective-style mixing function stands in
for the curve arithmetic. -/
def partialSigOf (s : MuSession) (msg : Nat) : Nat :=
  s.registered.foldl (fun acc q => acc * 1000003 + q.1 * 31 + q.2)
    (s.localNonce * 31 + msg)

/-- Modelled from the spec (section 4.4, Sign): requires every expected nonce
to be registered, fails with incomplete-nonces otherwise; an unknown or
destroyed session ID fails with session-not-found.  On success the session
records the produced partial signature. -/
def muSig2Sign (st : SessionStore) (id : Nat) (msg : Nat)
    (withSortedKeys : Bool) : Except MuErr (Nat × SessionStore) :=
  match lookupSession st id with
  | none => .error .sessionNotFound
  | some s =>
    if allRegistered s then
      let psig := partialSigOf s msg
      .ok (psig, updateSession st id { s with partialSig := some psig })
    else .error .incompleteNonces

/-- Modelled from the spec (section 4.4, CombineSignatures): merges the
supplied partial signatures with the locally produced one, if any;
`fullyCombined` is true once a signature from every participant is present.
An unknown or destroyed session ID fails with session-not-found.  The
aggregate combination itself stands in for the curve arithmetic. -/
def muSig2CombineSig (st : SessionStore) (id : Nat)
    (partialSigs : List Nat) : Except MuErr (Nat × Bool × SessionStore) :=
  match lookupSession st id with
  | none => .error .sessionNotFound
  | some s =>
    let contributed :=
      match s.partialSig with
      | some l => l :: partialSigs
      | none => partialSigs
    let agg := contributed.foldl (· + ·) 0
    .ok (agg, decide (contributed.length = s.expected.length + 1), st)

/-- Modelled from the spec (sections 4.2 and 9): the closed set of
`WitnessType` variants, each carrying enough static information (here, the
known witness-script length of script-path shapes) to compute an exact
upper-bound witness size without a live signature. -/
inductive WTVariant where
  | keyPathEcdsa
  | nestedKeyPathEcdsa
  | scriptPathEcdsa (scriptLen : Nat)
  | nestedScriptPathEcdsa (scriptLen : Nat)
  | schnorrKeyPath
deriving DecidableEq, Repr

/-- Modelled from the spec (section 3, SignDescriptor): the fields a witness
generator reads — the public key and the witness script, as byte strings. -/
structure SignDescModel where
  pubKey : List Nat
  witnessScript : List Nat
deriving DecidableEq, Repr

/-- Modelled from the spec (section 4.3, Signer): a signing capability,
viewed through the byte strings it produces.  ECDSA signatures are
variable-length (DER), Schnorr signatures fixed-length. -/
structure SignerModel where
  ecdsaSign : SignDescModel → List Nat
  schnorrSign : SignDescModel → List Nat

/-- Modelled from the spec (section 4.2): a valid signer's ECDSA signatures
are at most the 72-byte worst case and its Schnorr signatures exactly
64 bytes. -/
def ValidSigner (sg : SignerModel) : Prop :=
  ∀ d, (sg.ecdsaSign d).length ≤ 72 ∧ (sg.schnorrSign d).length = 64

/-- Modelled from the spec: a descriptor valid for a variant carries a
33-byte compressed public key, and for script-path shapes a witness script of
the length the variant declares. -/
def validDesc (v : WTVariant) (d : SignDescModel) : Prop :=
  d.pubKey.length = 33 ∧
  match v with
  | .scriptPathEcdsa l => d.witnessScript.length = l
  | .nestedScriptPathEcdsa l => d.witnessScript.length = l
  | _ => True

/-- Modelled from the spec (section 4.2 (d)): the witness-generation function
of each variant — the witness stack it assembles from the signer's signature
and the descriptor.  Nested-P2SH variants produce the same witness stack as
their non-nested counterparts (the sigScript wrapper is separate data). -/
def witnessGen (v : WTVariant) (sg : SignerModel) (d : SignDescModel) :
    List (List Nat) :=
  match v with
  | .keyPathEcdsa => [sg.ecdsaSign d, d.pubKey]
  | .nestedKeyPathEcdsa => [sg.ecdsaSign d, d.pubKey]
  | .scriptPathEcdsa _ => [sg.ecdsaSign d, d.witnessScript]
  | .nestedScriptPathEcdsa _ => [sg.ecdsaSign d, d.witnessScript]
  | .schnorrKeyPath => [sg.schnorrSign d]

/-- Serialized byte length of a witness stack: one compact-size count plus,
per element, a compact-size length prefix and the element bytes (elements in
this model stay below the multi-byte compact-size threshold). -/
def witnessByteLen (w : List (List Nat)) : Nat :=
  1 + (w.map (fun e => 1 + e.length)).sum

/-- Modelled from the spec (section 4.2 (c)): the declared upper bound on
witness byte length of each variant, with its nested-P2SH flag.  ECDSA paths
budget the 72-byte worst-case signature; the Schnorr key path is fixed-size
with no slack. -/
def sizeUpperBound (v : WTVariant) : Nat × Bool :=
  match v with
  | .keyPathEcdsa => (1 + (1 + 72) + (1 + 33), false)
  | .nestedKeyPathEcdsa => (1 + (1 + 72) + (1 + 33), true)
  | .scriptPathEcdsa l => (1 + (1 + 72) + (1 + l), false)
  | .nestedScriptPathEcdsa l => (1 + (1 + 72) + (1 + l), true)
  | .schnorrKeyPath => (1 + (1 + 64), false)

end SpecModel

/-!
Concrete mock configurations used by witnesses and counterexamples.
-/

/-- A transaction value used in concrete instantiations. -/
def tx0 : Mocks.MsgTx := ⟨2, [10], [20], 0⟩

/-- A `MockInput` configuration whose `CraftInputScript` expectation was set
to `Return(nil, nil)`. -/
def craftNilNilCfg : Mocks.MockInputCfg :=
  ⟨.goNil, .goNil, .goNil, .goNil, .goNil, .goNil, .goNil, none,
    .goNil, .goNil, .goNil⟩

/-- A `MockInput` configuration whose `CraftInputScript` expectation returns
a non-nil `*Script` and a nil error. -/
def craftScriptCfg : Mocks.MockInputCfg :=
  ⟨.goNil, .goNil, .goNil, .goNil, .goNil, .goNil, .scriptV 5, none,
    .goNil, .goNil, .goNil⟩

/-- A `MockInput` configuration returning nil from every pointer/interface
accessor. -/
def accessorsNilCfg : Mocks.MockInputCfg :=
  ⟨.goNil, .goNil, .goNil, .goNil, .goNil, .goNil, .goNil, none,
    .goNil, .goNil, .goNil⟩

/-- A `MockInputSigner` configuration whose `SignOutputRaw` expectation was
set to `Return(nil, nil)`. -/
def signRawNilNilCfg : Mocks.MockInputSignerCfg :=
  ⟨.goNil, none, .goNil, none, .goNil, none, .goNil, none, .goNil, none,
    .goNil, .goNil, none, none⟩

/-- A `MockInputSigner` configuration whose `SignOutputRaw` expectation
returns a non-nil `Signature` and a nil error. -/
def signRawSigCfg : Mocks.MockInputSignerCfg :=
  ⟨.sigV 4, none, .goNil, none, .goNil, none, .goNil, none, .goNil, none,
    .goNil, .goNil, none, none⟩

/-- A `MockInputSigner` configuration whose `MuSig2CombineSig` expectation
was set to `Return(nil, true, err)` with a non-nil error. -/
def combineNilTrueCfg : Mocks.MockInputSignerCfg :=
  ⟨.goNil, none, .goNil, none, .goNil, none, .goNil, none, .goNil, none,
    .goNil, .boolV true, some 7, none⟩

/-- Claim C3: `CraftInputScript` leaves the passed transaction unchanged,
whether the call succeeds, returns an error, or panics on a bad type
assertion; its only effect is recording the call and delegating. -/
theorem C3_craftInputScript_preserves_transaction :
    ∀ (cfg : Mocks.MockInputCfg) (st : Mocks.MockState) (signer : Nat)
      (txn : Mocks.MsgTx) (hashCache prevOutputFetcher : Nat) (txinIdx : Int),
    (Mocks.MockInput.craftInputScript cfg st signer txn hashCache
        prevOutputFetcher txinIdx).2.2 = txn := by
  intro cfg st signer txn hashCache prevOutputFetcher txinIdx
  cases h : cfg.craftRet <;>
    simp [Mocks.MockInput.craftInputScript, h]

/-- Claim C10: `MockWitnessType.WitnessGenerator` invokes the mock dispatcher
with no arguments, so for a fixed configuration any two argument pairs yield
the same generator. -/
theorem C10_witnessGenerator_ignores_arguments :
    ∀ (cfg : Mocks.MockWitnessTypeCfg) (signer1 signer2 : Nat)
      (descriptor1 descriptor2 : Option Nat),
    Mocks.MockWitnessType.witnessGenerator cfg signer1 descriptor1 =
      Mocks.MockWitnessType.witnessGenerator cfg signer2 descriptor2 :=
  fun _ _ _ _ _ => rfl

/-- Claim C8: every `MockInput` accessor with a pointer or interface result
(`RequiredTxOut`, `WitnessType`, `SignDesc`, `UnconfParent`) returns nil
without a failing type assertion when the configured value is nil. -/
theorem C8_nil_accessors_total :
    ∀ cfg : Mocks.MockInputCfg,
    (cfg.requiredTxOutRet = Mocks.GoVal.goNil →
      Mocks.MockInput.requiredTxOut cfg = Except.ok none) ∧
    (cfg.witnessTypeRet = Mocks.GoVal.goNil →
      Mocks.MockInput.witnessType cfg = Except.ok none) ∧
    (cfg.signDescRet = Mocks.GoVal.goNil →
      Mocks.MockInput.signDesc cfg = Except.ok none) ∧
    (cfg.unconfParentRet = Mocks.GoVal.goNil →
      Mocks.MockInput.unconfParent cfg = Except.ok none) := by
  intro cfg
  refine ⟨fun h => ?_, fun h => ?_, fun h => ?_, fun h => ?_⟩ <;>
    simp [Mocks.MockInput.requiredTxOut, Mocks.MockInput.witnessType,
      Mocks.MockInput.signDesc, Mocks.MockInput.unconfParent, h]

/-- Witness for C8 at an all-nil configuration. -/
theorem C8_witness_concrete :
    Mocks.MockInput.requiredTxOut accessorsNilCfg = Except.ok none ∧
    Mocks.MockInput.witnessType accessorsNilCfg = Except.ok none ∧
    Mocks.MockInput.signDesc accessorsNilCfg = Except.ok none ∧
    Mocks.MockInput.unconfParent accessorsNilCfg = Except.ok none :=
  ⟨(C8_nil_accessors_total accessorsNilCfg).1 rfl,
    (C8_nil_accessors_total accessorsNilCfg).2.1 rfl,
    (C8_nil_accessors_total accessorsNilCfg).2.2.1 rfl,
    (C8_nil_accessors_total accessorsNilCfg).2.2.2 rfl⟩

/-- Claim C9: whenever `MuSig2CombineSig` returns a nil aggregate signature,
the `fullyCombined` flag is `false` and the error is the configured one; the
configured boolean is discarded on that path. -/
theorem C9_combineSig_nil_implies_not_fullyCombined :
    ∀ (cfg : Mocks.MockInputSignerCfg) (sessionID : Nat)
      (partialSigs : List Nat) (r : Option Nat × Bool × Option Mocks.GoError),
    Mocks.MockInputSigner.muSig2CombineSig cfg sessionID partialSigs =
      Except.ok r →
    r.1 = none →
    r.2.1 = false ∧ r.2.2 = cfg.combineSigErr := by
  intro cfg sessionID partialSigs r hok hnone
  unfold Mocks.MockInputSigner.muSig2CombineSig at hok
  cases hret : cfg.combineSigRet <;> rw [hret] at hok
  case goNil =>
    injection hok with h
    subst h
    exact ⟨rfl, rfl⟩
  case schnorrSigV s =>
    simp only [Mocks.assertSchnorrSig] at hok
    cases hb : cfg.combineSigBool <;> rw [hb] at hok
    case boolV b =>
      simp only [Mocks.assertBool] at hok
      injection hok with h
      subst h
      simp at hnone
    all_goals simp [Mocks.assertBool] at hok
  all_goals simp [Mocks.assertSchnorrSig] at hok

/-- Witness for C9 at a configuration returning a nil signature, a configured
`true` boolean and a non-nil error. -/
theorem C9_witness_concrete :
    Mocks.MockInputSigner.muSig2CombineSig combineNilTrueCfg 0 [] =
      Except.ok (none, false, some 7) ∧
    (false = false ∧ some 7 = combineNilTrueCfg.combineSigErr) :=
  ⟨rfl, C9_combineSig_nil_implies_not_fullyCombined combineNilTrueCfg 0 []
    (none, false, some 7) rfl rfl⟩

/-- Claim C2, counterexample: with the `CraftInputScript` expectation
configured as `Return(nil, nil)`, the call returns neither a Script nor an
error — refuting the claim that it never returns neither. -/
theorem C2_craftInputScript_counterexample :
    (Mocks.MockInput.craftInputScript craftNilNilCfg [] 0 tx0 0 0 0).1 =
      Except.ok (none, none) ∧
    ¬ ∃ r : Option Nat × Option Mocks.GoError,
        (Mocks.MockInput.craftInputScript craftNilNilCfg [] 0 tx0 0 0 0).1 =
          Except.ok r ∧
        (r.1.isSome ∨ r.2.isSome) := by
  refine ⟨rfl, ?_⟩
  rintro ⟨r, hr, hor⟩
  have hr' : Except.ok (ε := Mocks.GoPanic)
      ((none : Option Nat), (none : Option Mocks.GoError)) = Except.ok r := hr
  injection hr' with h
  subst h
  simp at hor

/-- Claim C2 as amended: for every well-typed configuration that supplies a
non-nil Script or a non-nil error, `CraftInputScript` returns a non-nil
Script or an error; on the nil-Script path it returns nil together with
exactly the configured error.  (The original claim fails only for the
`Return(nil, nil)` configuration.) -/
theorem C2_craftInputScript_amended :
    ∀ (cfg : Mocks.MockInputCfg) (st : Mocks.MockState) (signer : Nat)
      (txn : Mocks.MsgTx) (hashCache prevOutputFetcher : Nat) (txinIdx : Int),
    (cfg.craftRet = Mocks.GoVal.goNil ∨
      ∃ s, cfg.craftRet = Mocks.GoVal.scriptV s) →
    ((∃ s, cfg.craftRet = Mocks.GoVal.scriptV s) ∨ cfg.craftErr.isSome) →
    ∃ r : Option Nat × Option Mocks.GoError,
      (Mocks.MockInput.craftInputScript cfg st signer txn hashCache
          prevOutputFetcher txinIdx).1 = Except.ok r ∧
      (r.1.isSome ∨ r.2.isSome) ∧
      (cfg.craftRet = Mocks.GoVal.goNil →
        r.1 = none ∧ r.2 = cfg.craftErr) := by
  intro cfg st signer txn hashCache prevOutputFetcher txinIdx hw hne
  rcases hw with hnil | ⟨s, hs⟩
  · rcases hne with ⟨s, hs⟩ | herr
    · rw [hnil] at hs
      cases hs
    · refine ⟨(none, cfg.craftErr), ?_, ?_, ?_⟩
      · simp [Mocks.MockInput.craftInputScript, hnil]
      · exact Or.inr herr
      · exact fun _ => ⟨rfl, rfl⟩
  · refine ⟨(some s, cfg.craftErr), ?_, ?_, ?_⟩
    · simp [Mocks.MockInput.craftInputScript, hs]
    · exact Or.inl rfl
    · intro hnil
      rw [hnil] at hs
      cases hs

/-- Witness for the amended C2 at a configuration returning a non-nil
Script. -/
theorem C2_witness_concrete :
    ∃ r : Option Nat × Option Mocks.GoError,
      (Mocks.MockInput.craftInputScript craftScriptCfg [] 0 tx0 0 0 0).1 =
        Except.ok r ∧
      (r.1.isSome ∨ r.2.isSome) ∧
      (craftScriptCfg.craftRet = Mocks.GoVal.goNil →
        r.1 = none ∧ r.2 = craftScriptCfg.craftErr) :=
  C2_craftInputScript_amended craftScriptCfg [] 0 tx0 0 0 0
    (Or.inr ⟨5, rfl⟩) (Or.inl ⟨5, rfl⟩)

/-- Claim C7, counterexample: with the `SignOutputRaw` expectation configured
as `Return(nil, nil)`, the call returns neither a signature nor an error —
refuting the claimed success-or-error dichotomy. -/
theorem C7_signOutputRaw_counterexample :
    Mocks.MockInputSigner.signOutputRaw signRawNilNilCfg tx0 0 =
      Except.ok (none, none) ∧
    ¬ ∃ r : Option Nat × Option Mocks.GoError,
        Mocks.MockInputSigner.signOutputRaw signRawNilNilCfg tx0 0 =
          Except.ok r ∧
        (r.1.isSome ∨ r.2.isSome) := by
  refine ⟨rfl, ?_⟩
  rintro ⟨r, hr, hor⟩
  have hr' : Except.ok (ε := Mocks.GoPanic)
      ((none : Option Nat), (none : Option Mocks.GoError)) = Except.ok r := hr
  injection hr' with h
  subst h
  simp at hor

/-- Claim C7 as amended: for every well-typed configuration that supplies a
non-nil signature or a non-nil error, `SignOutputRaw` returns a non-nil
signature or an error; on the nil-signature path the returned Signature is
nil and the error is exactly the configured one.  (The original claim fails
only for the `Return(nil, nil)` configuration.) -/
theorem C7_signOutputRaw_amended :
    ∀ (cfg : Mocks.MockInputSignerCfg) (tx : Mocks.MsgTx)
      (signDescArg : Nat),
    (cfg.signOutputRawRet = Mocks.GoVal.goNil ∨
      ∃ s, cfg.signOutputRawRet = Mocks.GoVal.sigV s) →
    ((∃ s, cfg.signOutputRawRet = Mocks.GoVal.sigV s) ∨
      cfg.signOutputRawErr.isSome) →
    ∃ r : Option Nat × Option Mocks.GoError,
      Mocks.MockInputSigner.signOutputRaw cfg tx signDescArg =
        Except.ok r ∧
      (r.1.isSome ∨ r.2.isSome) ∧
      (cfg.signOutputRawRet = Mocks.GoVal.goNil →
        r.1 = none ∧ r.2 = cfg.signOutputRawErr) := by
  intro cfg tx signDescArg hw hne
  rcases hw with hnil | ⟨s, hs⟩
  · rcases hne with ⟨s, hs⟩ | herr
    · rw [hnil] at hs
      cases hs
    · refine ⟨(none, cfg.signOutputRawErr), ?_, ?_, ?_⟩
      · simp [Mocks.MockInputSigner.signOutputRaw, hnil]
      · exact Or.inr herr
      · exact fun _ => ⟨rfl, rfl⟩
  · refine ⟨(some s, cfg.signOutputRawErr), ?_, ?_, ?_⟩
    · simp [Mocks.MockInputSigner.signOutputRaw, Mocks.assertSig, hs]
    · exact Or.inl rfl
    · intro hnil
      rw [hnil] at hs
      cases hs

/-- Witness for the amended C7 at a configuration returning a non-nil
signature. -/
theorem C7_witness_concrete :
    ∃ r : Option Nat × Option Mocks.GoError,
      Mocks.MockInputSigner.signOutputRaw signRawSigCfg tx0 0 =
        Except.ok r ∧
      (r.1.isSome ∨ r.2.isSome) ∧
      (signRawSigCfg.signOutputRawRet = Mocks.GoVal.goNil →
        r.1 = none ∧ r.2 = signRawSigCfg.signOutputRawErr) :=
  C7_signOutputRaw_amended signRawSigCfg tx0 0
    (Or.inr ⟨4, rfl⟩) (Or.inl ⟨4, rfl⟩)

/-- A valid signer instance used for concrete instantiation: 71-byte ECDSA
signatures, 64-byte Schnorr signatures. -/
def constSigner : SpecModel.SignerModel :=
  ⟨fun _ => List.replicate 71 1, fun _ => List.replicate 64 2⟩

/-- A descriptor with a 33-byte compressed key and a 5-byte witness script. -/
def constDesc : SpecModel.SignDescModel :=
  ⟨List.replicate 33 3, List.replicate 5 4⟩

/-- Claim C1: for every WitnessType variant and every valid SignDescriptor,
the declared `SizeUpperBound` is at least the byte length of any witness the
variant's generator produces with a valid signer. -/
theorem C1_sizeUpperBound_dominates_witness_len :
    ∀ (v : SpecModel.WTVariant) (sg : SpecModel.SignerModel)
      (d : SpecModel.SignDescModel),
    SpecModel.ValidSigner sg →
    SpecModel.validDesc v d →
    SpecModel.witnessByteLen (SpecModel.witnessGen v sg d) ≤
      (SpecModel.sizeUpperBound v).1 := by
  intro v sg d hs hd
  obtain ⟨he, hsch⟩ := hs d
  cases v <;>
    simp [SpecModel.witnessGen, SpecModel.witnessByteLen,
      SpecModel.sizeUpperBound, SpecModel.validDesc] at hd ⊢ <;>
    omega

/-- Witness for C1 at the script-path variant with a concrete signer and
descriptor. -/
theorem C1_witness_concrete :
    SpecModel.witnessByteLen
      (SpecModel.witnessGen (.scriptPathEcdsa 5) constSigner constDesc) ≤
      (SpecModel.sizeUpperBound (.scriptPathEcdsa 5)).1 :=
  C1_sizeUpperBound_dominates_witness_len (.scriptPathEcdsa 5) constSigner
    constDesc
    (fun d => by constructor <;> simp [constSigner])
    (by constructor <;> simp [SpecModel.validDesc, constDesc])

namespace SpecModel

/-- `find?` skips a prefix in which it finds nothing. -/
lemma find?_append_of_none {α : Type} (p : α → Bool) {l1 : List α}
    (l2 : List α) (h : l1.find? p = none) :
    (l1 ++ l2).find? p = l2.find? p := by
  induction l1 with
  | nil => rfl
  | cons a t ih =>
    rw [List.cons_append]
    cases hp : p a
    · rw [List.find?_cons_of_neg _ (by simp [hp])] at h
      rw [List.find?_cons_of_neg _ (by simp [hp])]
      exact ih h
    · rw [List.find?_cons_of_pos _ hp] at h
      cases h

/-- `find?` is unaffected by appending after a hit. -/
lemma find?_append_of_some {α : Type} {p : α → Bool} {l1 : List α}
    (l2 : List α) {a : α} (h : l1.find? p = some a) :
    (l1 ++ l2).find? p = some a := by
  induction l1 with
  | nil => cases h
  | cons x t ih =>
    rw [List.cons_append]
    cases hp : p x
    · rw [List.find?_cons_of_neg _ (by simp [hp])] at h
      rw [List.find?_cons_of_neg _ (by simp [hp])]
      exact ih h
    · rw [List.find?_cons_of_pos _ hp] at h
      rw [List.find?_cons_of_pos _ hp]
      exact h

/-- A cleaned-up session ID no longer resolves in the store. -/
lemma lookupSession_cleanup (st : SessionStore) (id : Nat) :
    lookupSession (muSig2Cleanup st id) id = none := by
  unfold lookupSession muSig2Cleanup
  rw [Option.map_eq_none', List.find?_eq_none]
  intro x hx
  rw [List.mem_filter] at hx
  simpa using hx.2

/-- Everything `registerOne` guarantees on success: the participant was
expected, the expected set and local nonce are unchanged, the participant's
nonce is now registered, and previously registered nonces survive. -/
lemma registerOne_ok_spec {s : MuSession} {p : Participant} {n : PubNonce}
    {s1 : MuSession} (h : registerOne s p n = Except.ok s1) :
    p ∈ s.expected ∧ s1.expected = s.expected ∧
    s1.localNonce = s.localNonce ∧
    registeredNonce s1 p = some (p, n) ∧
    (∀ p0 q0, registeredNonce s p0 = some q0 →
      registeredNonce s1 p0 = some q0) := by
  unfold registerOne at h
  split at h
  case isTrue hmem =>
    split at h
    case h_1 q hq =>
      split at h
      case isTrue hqn =>
        injection h with h
        subst h
        have hq1 : q.1 = p := by
          have := List.find?_some hq
          simpa using this
        refine ⟨hmem, rfl, rfl, ?_, fun p0 q0 hq0 => hq0⟩
        rw [hq]
        cases q
        simp_all
      case isFalse hqn => cases h
    case h_2 hq =>
      injection h with h
      subst h
      refine ⟨hmem, rfl, rfl, ?_, ?_⟩
      · unfold registeredNonce at hq ⊢
        rw [find?_append_of_none _ _ hq]
        simp [List.find?]
      · intro p0 q0 hq0
        unfold registeredNonce at hq0 ⊢
        exact find?_append_of_some _ hq0
  case isFalse hmem => cases h

/-- Everything `registerMany` guarantees on success, including that every
registered pair of the batch is present afterwards. -/
lemma registerMany_ok_spec {s : MuSession}
    {ns : List (Participant × PubNonce)} {s1 : MuSession}
    (h : registerMany s ns = Except.ok s1) :
    s1.expected = s.expected ∧ s1.localNonce = s.localNonce ∧
    (∀ p0 q0, registeredNonce s p0 = some q0 →
      registeredNonce s1 p0 = some q0) ∧
    (∀ x ∈ ns, x.1 ∈ s1.expected ∧
      registeredNonce s1 x.1 = some (x.1, x.2)) := by
  induction ns generalizing s with
  | nil =>
    injection h with h
    subst h
    exact ⟨rfl, rfl, fun _ _ h => h, by simp⟩
  | cons x xs ih =>
    unfold registerMany at h
    cases hr : registerOne s x.1 x.2 <;> rw [hr] at h
    · cases h
    case ok sm =>
      obtain ⟨hmem, hexp, hloc, hself, hpres⟩ := registerOne_ok_spec hr
      obtain ⟨hexp1, hloc1, hpres1, hall⟩ := ih h
      refine ⟨hexp1.trans hexp, hloc1.trans hloc,
        fun p0 q0 hq0 => hpres1 _ _ (hpres _ _ hq0), ?_⟩
      intro y hy
      rcases List.mem_cons.mp hy with hy1 | hy2
      · subst hy1
        exact ⟨by rw [hexp1.trans hexp]; exact hmem, hpres1 _ _ hself⟩
      · exact hall y hy2

/-- Registering a batch whose pairs are all already present (with the same
nonces) succeeds and leaves the session unchanged. -/
lemma registerMany_of_present {s : MuSession}
    {ns : List (Participant × PubNonce)}
    (h : ∀ x ∈ ns, x.1 ∈ s.expected ∧
      registeredNonce s x.1 = some (x.1, x.2)) :
    registerMany s ns = Except.ok s := by
  induction ns with
  | nil => rfl
  | cons x xs ih =>
    obtain ⟨hmem, hq⟩ := h x (List.mem_cons_self x xs)
    have h1 : registerOne s x.1 x.2 = Except.ok s := by
      unfold registerOne
      rw [if_pos hmem, hq]
      simp
    unfold registerMany
    rw [h1]
    exact ih (fun y hy => h y (List.mem_cons_of_mem _ hy))

/-- Re-registering the same batch on the resulting session is the
identity. -/
lemma registerMany_idem {s : MuSession}
    {ns : List (Participant × PubNonce)} {s1 : MuSession}
    (h : registerMany s ns = Except.ok s1) :
    registerMany s1 ns = Except.ok s1 :=
  registerMany_of_present (fun x hx => (registerMany_ok_spec h).2.2.2 x hx)

/-- Looking up the updated ID yields the new session (when the ID was
present at all). -/
lemma lookupSession_update (st : SessionStore) (id : Nat) (s1 : MuSession) :
    lookupSession (updateSession st id s1) id =
      (lookupSession st id).map (fun _ => s1) := by
  induction st with
  | nil => rfl
  | cons p t ih =>
    unfold lookupSession updateSession at ih ⊢
    by_cases hp : p.1 = id
    · simp [List.find?, hp]
    · simp only [List.map_cons, if_neg hp]
      rw [List.find?_cons_of_neg _ (by simp [hp]),
        List.find?_cons_of_neg _ (by simp [hp])]
      exact ih

/-- Updating the same ID with the same session twice equals updating once. -/
lemma update_update (st : SessionStore) (id : Nat) (s1 : MuSession) :
    updateSession (updateSession st id s1) id s1 = updateSession st id s1 := by
  unfold updateSession
  rw [List.map_map]
  apply List.map_congr_left
  intro p hp
  by_cases hp1 : p.1 = id <;> simp [Function.comp, hp1]

end SpecModel

/-- Claim C4: after `MuSig2Cleanup(id)`, every subsequent MuSig2 operation on
the same ID (`RegisterNonces`, `Sign`, `CombineSig`) fails with
session-not-found. -/
theorem C4_cleanup_then_ops_session_not_found :
    ∀ (st : SpecModel.SessionStore) (id : Nat)
      (nonces : List (SpecModel.Participant × SpecModel.PubNonce))
      (msg : Nat) (withSortedKeys : Bool) (partialSigs : List Nat),
    SpecModel.muSig2RegisterNonces (SpecModel.muSig2Cleanup st id) id nonces =
      Except.error SpecModel.MuErr.sessionNotFound ∧
    SpecModel.muSig2Sign (SpecModel.muSig2Cleanup st id) id msg
        withSortedKeys =
      Except.error SpecModel.MuErr.sessionNotFound ∧
    SpecModel.muSig2CombineSig (SpecModel.muSig2Cleanup st id) id
        partialSigs =
      Except.error SpecModel.MuErr.sessionNotFound := by
  intro st id nonces msg withSortedKeys partialSigs
  have h := SpecModel.lookupSession_cleanup st id
  refine ⟨?_, ?_, ?_⟩ <;>
    simp [SpecModel.muSig2RegisterNonces, SpecModel.muSig2Sign,
      SpecModel.muSig2CombineSig, h]

/-- Claim C5: `MuSig2RegisterNonces` is idempotent — registering the same
batch again yields the same result and the same session store — and its
boolean is true exactly when every expected participant's nonce is present
in the resulting session. -/
theorem C5_registerNonces_idempotent :
    ∀ (st : SpecModel.SessionStore) (id : Nat)
      (nonces : List (SpecModel.Participant × SpecModel.PubNonce))
      (b : Bool) (st1 : SpecModel.SessionStore),
    SpecModel.muSig2RegisterNonces st id nonces = Except.ok (b, st1) →
    SpecModel.muSig2RegisterNonces st1 id nonces = Except.ok (b, st1) ∧
    ∃ s1, SpecModel.lookupSession st1 id = some s1 ∧
      (b = true ↔ SpecModel.allRegistered s1 = true) := by
  intro st id ns b st1 h
  unfold SpecModel.muSig2RegisterNonces at h
  split at h
  · cases h
  next s hl =>
    split at h
    · cases h
    next s1 hr =>
      injection h with h
      rw [Prod.mk.injEq] at h
      obtain ⟨hb, hst⟩ := h
      subst hb
      subst hst
      have hlk : SpecModel.lookupSession
          (SpecModel.updateSession st id s1) id = some s1 := by
        rw [SpecModel.lookupSession_update, hl]
        rfl
      refine ⟨?_, s1, hlk, Iff.rfl⟩
      simp [SpecModel.muSig2RegisterNonces, hlk,
        SpecModel.registerMany_idem hr, SpecModel.update_update]

/-- Concrete store with one 2-of-2 session awaiting participant 2's nonce. -/
def oneSessionStore : SpecModel.SessionStore :=
  [(1, ⟨7, 5, [2], [], none⟩)]

/-- The same store after participant 2's nonce has been registered. -/
def oneSessionStoreAfter : SpecModel.SessionStore :=
  [(1, ⟨7, 5, [2], [(2, 9)], none⟩)]

/-- Witness for C5 at a concrete one-session store. -/
theorem C5_witness_concrete :
    SpecModel.muSig2RegisterNonces oneSessionStoreAfter 1 [(2, 9)] =
      Except.ok (true, oneSessionStoreAfter) ∧
    ∃ s1, SpecModel.lookupSession oneSessionStoreAfter 1 = some s1 ∧
      (true = true ↔ SpecModel.allRegistered s1 = true) :=
  C5_registerNonces_idempotent oneSessionStore 1 [(2, 9)] true
    oneSessionStoreAfter rfl

/-- Claim C6: `MuSig2Sign` is deterministic — two successful calls on
sessions with identical nonce state (local nonce and registered remote
nonces) and an identical message produce the same partial signature. -/
theorem C6_sign_deterministic :
    ∀ (st1 st2 : SpecModel.SessionStore) (id1 id2 : Nat)
      (s1 s2 : SpecModel.MuSession) (msg : Nat) (w1 w2 : Bool)
      (r1 r2 : Nat) (st1' st2' : SpecModel.SessionStore),
    SpecModel.lookupSession st1 id1 = some s1 →
    SpecModel.lookupSession st2 id2 = some s2 →
    s1.localNonce = s2.localNonce →
    s1.registered = s2.registered →
    SpecModel.muSig2Sign st1 id1 msg w1 = Except.ok (r1, st1') →
    SpecModel.muSig2Sign st2 id2 msg w2 = Except.ok (r2, st2') →
    r1 = r2 := by
  intro st1 st2 id1 id2 s1 s2 msg w1 w2 r1 r2 st1' st2' h1 h2 hloc hreg h5 h6
  unfold SpecModel.muSig2Sign at h5 h6
  split at h5
  next hl1 =>
    rw [h1] at hl1
    cases hl1
  next sa hl1 =>
    rw [h1] at hl1
    injection hl1 with hs1
    subst hs1
    split at h6
    next hl2 =>
      rw [h2] at hl2
      cases hl2
    next sb hl2 =>
      rw [h2] at hl2
      injection hl2 with hs2
      subst hs2
      split at h5
      case isTrue =>
        split at h6
        case isTrue =>
          injection h5 with h5
          injection h6 with h6
          rw [Prod.mk.injEq] at h5 h6
          rw [← h5.1, ← h6.1]
          unfold SpecModel.partialSigOf
          rw [hloc, hreg]
        case isFalse => cases h6
      case isFalse => cases h5

/-- A store whose session 1 has nonce state (local 5, remote (2, 9)). -/
def signStoreA : SpecModel.SessionStore :=
  [(1, ⟨100, 5, [2], [(2, 9)], none⟩)]

/-- A store differing from `signStoreA` in session ID, local key and cached
partial signature, but with the same nonce state. -/
def signStoreB : SpecModel.SessionStore :=
  [(3, ⟨200, 5, [2], [(2, 9)], some 42⟩)]

/-- Witness for C6: signing the same message on two sessions with identical
nonce state yields the same partial signature. -/
theorem C6_witness_concrete :
    ∃ st1' st2',
      SpecModel.muSig2Sign signStoreA 1 11 true =
        Except.ok (166000569, st1') ∧
      SpecModel.muSig2Sign signStoreB 3 11 false =
        Except.ok (166000569, st2') ∧
      (166000569 : Nat) = 166000569 := by
  refine ⟨_, _, rfl, rfl, ?_⟩
  exact C6_sign_deterministic signStoreA signStoreB 1 3
    ⟨100, 5, [2], [(2, 9)], none⟩ ⟨200, 5, [2], [(2, 9)], some 42⟩ 11
    true false 166000569 166000569 _ _ rfl rfl rfl rfl rfl rfl
